import Mathlib

/-!
Verification of the FGWeather web application's data-transformation and
classification pipeline, shallowly embedded in Lean 4.

Numeric values flowing through the pipeline (AQI values, temperatures,
coordinates, precipitation amounts) are modelled as rationals; timestamps in
milliseconds as integers; array indices as naturals.  Each definition mirrors
one function of the TypeScript source; doc comments name the source location.
-/

namespace FGWeather

/-! ### Air quality classification (src/lib/utils/air-quality-api.ts) -/

/-- `getAirQualityLevel` from src/lib/utils/air-quality-api.ts, lines 75-81:
thresholds 20 / 40 / 60 / 80 on the European AQI value. -/
def getAirQualityLevel (aqi : ℚ) : String :=
  if aqi ≤ 20 then "1"
  else if aqi ≤ 40 then "2"
  else if aqi ≤ 60 then "3"
  else if aqi ≤ 80 then "4"
  else "5"

/-- Page-local `getAirQualityLevel` from the AirQuality page (src/unnamed/part_001,
lines 241-247): thresholds 50 / 100 / 150 / 200. -/
def getAirQualityLevelPage (aqi : ℚ) : String :=
  if aqi ≤ 50 then "1"
  else if aqi ≤ 100 then "2"
  else if aqi ≤ 150 then "3"
  else if aqi ≤ 200 then "4"
  else "5"

/-- The record returned by `getHealthRecommendations`. -/
structure HealthRecommendations where
  ventilation : String
  outdoor : String
  sensitive : String
deriving DecidableEq

/-- `getHealthRecommendations` from src/lib/utils/air-quality-api.ts, lines 84-96.
Note that it takes the raw AQI value, with strict cutoffs at 40 and 60. -/
def getHealthRecommendations (aqi : ℚ) : HealthRecommendations :=
  { ventilation :=
      if aqi < 40 then "It\x27s a good time to open windows and ventilate."
      else "Keep windows closed to avoid pollutants entering your home."
  , outdoor :=
      if aqi < 60 then "Safe for most outdoor activities."
      else "Consider limiting prolonged outdoor exertion."
  , sensitive :=
      if aqi < 40 then "No special precautions needed."
      else "Children, elderly and those with respiratory issues should take precautions." }

/-! ### Condition classifier -/

/-- The closed enumeration of derived weather conditions (spec §3; the
`WeatherCondition` union type of weather-utils). -/
inductive WeatherCondition where
  | clearDay
  | clearNight
  | partlyCloudyDay
  | partlyCloudyNight
  | cloudy
  | rain
  | showers
  | thunderstorm
  | snow
  | fog
deriving DecidableEq

/-- Modelled from the spec: `mapWeatherCode` lives in
src/lib/utils/weather-utils.ts, which is not among the provided sources (only
its callers are, e.g. src/components/HourlyForecast.tsx and
src/pages/Index.tsx).  Spec §4.3 documents it as a deterministic range-based
mapping with rows 0-1 clear, 2-3 partly-cloudy, 45-48 fog, 51-67 rain,
71-86 snow, 80-82 showers, 95-99 thunderstorm, default clear-day; the rows
are applied in the order listed, first match winning. -/
def mapWeatherCode (code : ℤ) (isDay : Bool) : WeatherCondition :=
  if 0 ≤ code ∧ code ≤ 1 then
    if isDay then .clearDay else .clearNight
  else if 2 ≤ code ∧ code ≤ 3 then
    if isDay then .partlyCloudyDay else .partlyCloudyNight
  else if 45 ≤ code ∧ code ≤ 48 then .fog
  else if 51 ≤ code ∧ code ≤ 67 then .rain
  else if 71 ≤ code ∧ code ≤ 86 then .snow
  else if 80 ≤ code ∧ code ≤ 82 then .showers
  else if 95 ≤ code ∧ code ≤ 99 then .thunderstorm
  else .clearDay

/-! ### Temporal selector -/

/-- Modelled from the spec: the start index used by `getNextNHours`
(src/lib/utils/weather-utils.ts, not among the provided sources; only callers
such as src/components/HourlyForecast.tsx line 15 are).  Spec §4.4: the first
index whose timestamp is at or after the current time, or the closest
preceding one (the last index) if no future samples remain in the fetched
window.  Timestamps are in milliseconds. -/
def startIndex (times : List ℤ) (nowMs : ℤ) : ℕ :=
  match (List.range times.length).find? (fun i => decide (nowMs ≤ times.getD i 0)) with
  | some s => s
  | none => times.length - 1

/-- Modelled from the spec: `getNextNHours` of weather-utils (spec §4.4).
Returns the `n` indices starting from `startIndex`, truncated at the end of
the series (no wrapping, no padding). -/
def getNextNHours (times : List ℤ) (nowMs : ℤ) (n : ℕ) : List ℕ :=
  (List.range (min n (times.length - startIndex times nowMs))).map
    (fun k => startIndex times nowMs + k)

/-- The "Now" test of src/components/HourlyForecast.tsx line 35:
`Math.abs(now.getTime() - forecastTime.getTime()) < 1800000`. -/
def isNowHour (nowMs t : ℤ) : Bool :=
  (nowMs - t).natAbs < 1800000

/-- The label shown for one hourly sample
(src/components/HourlyForecast.tsx line 45): `isNow ? 'Now' : formattedTime`. -/
def hourLabel (nowMs t : ℤ) (formattedTime : String) : String :=
  if isNowHour nowMs t then "Now" else formattedTime

/-! ### Geocoding (reverse geocode and search) -/

/-- One entry of the geocoding endpoint's `results[]` array, with the fields
the display-name logic reads (src/unnamed/part_000 lines 148-162 and
src/unnamed/part_001 lines 107-121). -/
structure GeoResult where
  name : String
  admin1 : Option String := none
  admin2 : Option String := none
  admin3 : Option String := none
deriving DecidableEq

/-- The admin-qualified display name built from the first geocoding result
(src/unnamed/part_000 lines 150-158, identically src/unnamed/part_001 lines
109-117): base name, with admin3 preferred over admin2 over admin1 appended. -/
def qualifiedLocationName (r : GeoResult) : String :=
  match r.admin3 with
  | some a => r.name ++ ", " ++ a
  | none =>
    match r.admin2 with
    | some a => r.name ++ ", " ++ a
    | none =>
      match r.admin1 with
      | some a => r.name ++ ", " ++ a
      | none => r.name

/-- JavaScript `Number.prototype.toFixed(4)` on a rational: round
`|x| * 10^4` to the nearest integer (ties away from zero on the magnitude,
as ECMA-262 specifies), then print sign, integer part, a dot, and the
fraction left-padded to 4 digits.  The rounded magnitude
`round(|x| * 10000) = (2 * |num| * 10000 + den) / (2 * den)` is computed with
integer floor division on the reduced numerator and denominator. -/
def toFixed4 (x : ℚ) : String :=
  let num : ℕ := x.num.natAbs * 10000
  let den : ℕ := x.den
  let n : ℕ := (2 * num + den) / (2 * den)
  let fracStr : String := toString (n % 10000)
  let pad : String := String.mk (List.replicate (4 - fracStr.length) (Char.ofNat 48))
  (if x < 0 then "-" else "") ++ toString (n / 10000) ++ "." ++ pad ++ fracStr

/-- The coordinate fallback name of src/unnamed/part_000 lines 161 and 185
(identically src/unnamed/part_001 lines 120 and 144):
`Location (lat.toFixed(4), lon.toFixed(4))`. -/
def fallbackLocationName (lat lon : ℚ) : String :=
  "Location (" ++ toFixed4 lat ++ ", " ++ toFixed4 lon ++ ")"

/-- The display name produced by location detection from the reverse-geocoding
outcome (src/unnamed/part_000 lines 136-195; src/unnamed/part_001 lines
104-156): a failed request (non-ok response or thrown error, the catch
branch) or an empty result set falls back to the coordinate name; a nonempty
result set uses the admin-qualified name of the first result.  The function
is total: no geocoding error escapes to the caller. -/
def locationDisplayName (resp : Except String (List GeoResult)) (lat lon : ℚ) : String :=
  match resp with
  | .error _ => fallbackLocationName lat lon
  | .ok [] => fallbackLocationName lat lon
  | .ok (r :: _) => qualifiedLocationName r

/-- The request sent by `searchLocation` (src/unnamed/part_004 lines 375-391):
`name=query, count=10, language="en"` against the geocoding endpoint. -/
structure GeocodingRequest where
  name : String
  count : ℕ
  language : String
deriving DecidableEq

/-- A geocoding search result as declared in src/unnamed/part_004 lines 261-268. -/
structure GeocodingResult where
  name : String
  latitude : ℚ
  longitude : ℚ
  country : String
  admin1 : Option String := none
  admin2 : Option String := none
deriving DecidableEq

/-- The request `searchLocation` issues (src/unnamed/part_004 lines 377-384). -/
def searchLocationRequest (query : String) : GeocodingRequest :=
  { name := query, count := 10, language := "en" }

/-- JavaScript `String.prototype.trim`: remove leading and trailing
whitespace. -/
def jsTrim (s : String) : String :=
  String.mk (((s.data.dropWhile Char.isWhitespace).reverse.dropWhile Char.isWhitespace).reverse)

/-- The network calls made by `handleSearch` of
src/components/LocationSearch.tsx lines 28-45: `if (!query.trim()) return;`
short-circuits before `searchLocation` is invoked, so a blank query issues no
request and any other query issues exactly one. -/
def handleSearchRequests (query : String) : List GeocodingRequest :=
  if jsTrim query = "" then [] else [searchLocationRequest query]

/-- `searchLocation`'s handling of a successful response
(src/unnamed/part_004 line 386): `response.data.results || []`, where the
abstract `server` maps the issued request to the optional results payload. -/
def searchLocation (server : GeocodingRequest → Option (List GeocodingResult))
    (query : String) : List GeocodingResult :=
  (server (searchLocationRequest query)).getD []

/-! ### Spatial overlay generator (src/unnamed/part_007, `visualizeWeatherData`) -/

/-- The map layer selector. `other` stands for any unrecognised `mapType`
string (the `default` switch branch). -/
inductive MapType where
  | temp
  | precipitation
  | clouds
  | wind
  | other
deriving DecidableEq

/-- The temperature unit toggle. -/
inductive TempUnit where
  | celsius
  | fahrenheit
deriving DecidableEq

/-- The fields of the fetched current-weather sample read by
`visualizeWeatherData` (src/unnamed/part_007 lines 196-224). -/
structure MapSample where
  temperature_2m : ℚ
  precipitation : ℚ
  cloud_cover : ℚ
  wind_speed_10m : ℚ
deriving DecidableEq

/-- One synthetic grid point (src/unnamed/part_007 line 226).  The source
record carries `{lat, lon, value}`; the grid offsets `i`, `j` that produced
the point are recorded alongside so the grid geometry can be stated. -/
structure OverlayPoint where
  i : ℤ
  j : ℤ
  lat : ℚ
  lon : ℚ
  value : ℚ
deriving DecidableEq

/-- The synthetic value of one grid point (src/unnamed/part_007 lines
192-224): the sample field selected by `mapType`, scaled by the
distance-decay factor (temperature only) and the pseudo-random jitter.
`rf` is the cell's `randomFactor` draw (in [0.7, 1.3]), `cl` the cell's
`Math.random() > 0.7` cluster draw (precipitation only), and `df` the cell's
distance factor `1 - (sqrt(i*i + j*j) / gridSize) * 0.4` (in [0.6, 1], and
exactly 1 at the center), passed in as data because its square root is
irrational for most cells. -/
def overlayValue (mt : MapType) (s : MapSample) (rf : ℚ) (cl : Bool) (df : ℚ) : ℚ :=
  match mt with
  | .temp => s.temperature_2m * df * rf
  | .precipitation => s.precipitation * rf ^ 3 * (if cl then 3 else 1)
  | .clouds => s.cloud_cover * rf
  | .wind => s.wind_speed_10m * rf
  | .other => 0

/-- The grid index range `-gridSize .. gridSize` with `gridSize = 10`
(src/unnamed/part_007 lines 180-184). -/
def gridRange : List ℤ :=
  (List.range 21).map (fun a => (a : ℤ) - 10)

/-- The synthetic point grid of `visualizeWeatherData` (src/unnamed/part_007
lines 184-228): square enumeration of offsets, skipping those with
`Math.sqrt(i*i + j*j) > gridSize` (equivalently `i*i + j*j > 100`), point
coordinates `center + offset * radius / gridSize` with `radius = 2` degrees.
The per-cell random draws and distance factors are supplied by `rf`, `cl`,
`df`. -/
def overlayPoints (lat lon : ℚ) (s : MapSample) (mt : MapType)
    (rf : ℤ → ℤ → ℚ) (cl : ℤ → ℤ → Bool) (df : ℤ → ℤ → ℚ) : List OverlayPoint :=
  gridRange.flatMap (fun i =>
    gridRange.flatMap (fun j =>
      if i * i + j * j > 100 then []
      else [{ i := i, j := j
            , lat := lat + i * 2 / 10
            , lon := lon + j * 2 / 10
            , value := overlayValue mt s (rf i j) (cl i j) (df i j) }]))

/-- A rendered circle (the arguments of `L.circle`, src/unnamed/part_007
lines 330-336). -/
structure MapCircle where
  lat : ℚ
  lon : ℚ
  color : String
  opacity : ℚ
  radius : ℚ
deriving DecidableEq

/-- The Celsius-to-Fahrenheit conversion applied before temperature
bucketing (src/unnamed/part_007 line 241). -/
def fahrenheitOf (v : ℚ) : ℚ :=
  v * 9 / 5 + 32

/-- The per-point tier bucketing and circle construction of
`visualizeWeatherData` (src/unnamed/part_007 lines 231-337).  Returns `none`
exactly where the source `return`s without drawing: precipitation value 0 and
cloud cover below 10. -/
def renderPoint (mt : MapType) (unit : TempUnit) (p : OverlayPoint) : Option MapCircle :=
  match mt with
  | .temp =>
    let v := if unit = .fahrenheit then fahrenheitOf p.value else p.value
    let c : String × ℚ :=
      if v < 0 then ("rgb(0, 50, 200)", 6/10)
      else if v < 10 then ("rgb(30, 100, 255)", 6/10)
      else if v < 20 then ("rgb(50, 150, 255)", 5/10)
      else if v < 25 then ("rgb(100, 200, 50)", 5/10)
      else if v < 30 then ("rgb(255, 200, 0)", 6/10)
      else if v < 35 then ("rgb(255, 100, 0)", 7/10)
      else ("rgb(200, 0, 0)", 7/10)
    some { lat := p.lat, lon := p.lon, color := c.1, opacity := c.2
         , radius := 20000 + v * 500 }
  | .precipitation =>
    if p.value = 0 then none
    else
      let c : String × ℚ :=
        if p.value < 1/2 then ("rgba(200, 220, 255, 0.6)", 4/10)
        else if p.value < 2 then ("rgba(100, 150, 255, 0.7)", 5/10)
        else if p.value < 5 then ("rgba(50, 100, 255, 0.8)", 6/10)
        else ("rgba(20, 50, 200, 0.9)", 7/10)
      some { lat := p.lat, lon := p.lon, color := c.1, opacity := c.2
           , radius := 15000 + p.value * 2000 }
  | .clouds =>
    if p.value < 10 then none
    else
      let c : String × ℚ :=
        if p.value < 30 then ("rgba(220, 220, 220, 0.7)", 3/10)
        else if p.value < 60 then ("rgba(180, 180, 180, 0.8)", 4/10)
        else if p.value < 85 then ("rgba(150, 150, 150, 0.8)", 5/10)
        else ("rgba(100, 100, 100, 0.9)", 6/10)
      some { lat := p.lat, lon := p.lon, color := c.1, opacity := c.2
           , radius := 20000 + p.value * 200 }
  | .wind =>
    let c : String × ℚ :=
      if p.value < 5 then ("rgba(100, 200, 100, 0.6)", 4/10)
      else if p.value < 15 then ("rgba(150, 200, 50, 0.7)", 5/10)
      else if p.value < 30 then ("rgba(255, 200, 0, 0.8)", 6/10)
      else ("rgba(255, 50, 0, 0.9)", 7/10)
    some { lat := p.lat, lon := p.lon, color := c.1, opacity := c.2
         , radius := 15000 + p.value * 1000 }
  | .other =>
    some { lat := p.lat, lon := p.lon, color := "blue", opacity := 5/10
         , radius := 15000 }

/-! ## Theorems -/

/-- C2: applying the AQI classification to european_aqi = 45 yields tier "3"
under the library threshold table {20,40,60,80} and tier "1" under the
page-local table {50,100,150,200}; each classifier returns the tier
determined by its fixed non-overlapping thresholds for every input value. -/
theorem aqi_classification_tables :
    getAirQualityLevel 45 = "3" ∧ getAirQualityLevelPage 45 = "1" ∧
    ∀ aqi : ℚ,
      ((aqi ≤ 20 → getAirQualityLevel aqi = "1") ∧
       (20 < aqi → aqi ≤ 40 → getAirQualityLevel aqi = "2") ∧
       (40 < aqi → aqi ≤ 60 → getAirQualityLevel aqi = "3") ∧
       (60 < aqi → aqi ≤ 80 → getAirQualityLevel aqi = "4") ∧
       (80 < aqi → getAirQualityLevel aqi = "5")) ∧
      ((aqi ≤ 50 → getAirQualityLevelPage aqi = "1") ∧
       (50 < aqi → aqi ≤ 100 → getAirQualityLevelPage aqi = "2") ∧
       (100 < aqi → aqi ≤ 150 → getAirQualityLevelPage aqi = "3") ∧
       (150 < aqi → aqi ≤ 200 → getAirQualityLevelPage aqi = "4") ∧
       (200 < aqi → getAirQualityLevelPage aqi = "5")) := by
  refine ⟨by decide, by decide, fun aqi => ⟨⟨?_, ?_, ?_, ?_, ?_⟩, ?_, ?_, ?_, ?_, ?_⟩⟩ <;>
    intros <;>
    simp only [getAirQualityLevel, getAirQualityLevelPage] <;>
    split_ifs <;>
    first
      | rfl
      | (exfalso; linarith)

/-- Witness for C2 at the input 45 named by the claim. -/
theorem aqi_classification_tables_witness :
    getAirQualityLevel 45 = "3" ∧ getAirQualityLevelPage 45 = "1" :=
  ⟨(aqi_classification_tables.2.2 45).1.2.2.1 (by norm_num) (by norm_num),
   (aqi_classification_tables.2.2 45).2.1 (by norm_num)⟩

/-- C6 counterexample: 35 and 40 classify to the same AirQualityLevel tier
("2"), yet `getHealthRecommendations` (which reads the raw value against
strict cutoffs 40 and 60) returns different advisory strings for them. -/
theorem healthRecommendations_not_level_lookup :
    getAirQualityLevel 35 = getAirQualityLevel 40 ∧
    getHealthRecommendations 35 ≠ getHealthRecommendations 40 := by
  decide

/-- C6 amended: `getHealthRecommendations` depends on the raw european_aqi
value only through the comparisons `aqi < 40` and `aqi < 60`; any two values
agreeing on both comparisons receive identical ventilation, outdoor and
sensitive advice. -/
theorem healthRecommendations_cutoff_congruence (a b : ℚ)
    (h40 : a < 40 ↔ b < 40) (h60 : a < 60 ↔ b < 60) :
    getHealthRecommendations a = getHealthRecommendations b := by
  simp only [getHealthRecommendations, propext h40, propext h60]

/-- Witness for the amended C6 at concrete inputs 10 and 15. -/
theorem healthRecommendations_cutoff_congruence_witness :
    getHealthRecommendations 10 = getHealthRecommendations 15 :=
  healthRecommendations_cutoff_congruence 10 15 (by norm_num) (by norm_num)

/-- C9: an hourly sample is marked "Now" if and only if its timestamp is
within 30 minutes (1800000 ms) of the wall-clock time, in either direction;
a marked sample displays "Now" and every other sample displays its formatted
time. -/
theorem now_marking_tolerance (nowMs t : ℤ) (fmt : String) :
    (isNowHour nowMs t = true ↔ t - nowMs < 1800000 ∧ nowMs - t < 1800000) ∧
    (isNowHour nowMs t = true → hourLabel nowMs t fmt = "Now") ∧
    (isNowHour nowMs t = false → hourLabel nowMs t fmt = fmt) := by
  refine ⟨?_, ?_, ?_⟩
  · simp only [isNowHour, decide_eq_true_eq]
    omega
  · intro h
    simp [hourLabel, h]
  · intro h
    simp [hourLabel, h]

/-- Witness for C9: a sample 25 minutes away is marked "Now". -/
theorem now_marking_tolerance_witness :
    isNowHour 3000000 1500000 = true ∧ hourLabel 3000000 1500000 "14:00" = "Now" :=
  ⟨by decide, (now_marking_tolerance 3000000 1500000 "14:00").2.1 (by decide)⟩

/-- C5: when reverse geocoding fails (thrown error or non-ok response) or
returns an empty result set, location detection produces the coordinate
fallback name; `locationDisplayName` is total, so the geocoding error never
propagates. -/
theorem reverse_geocode_fallback (lat lon : ℚ) (resp : Except String (List GeoResult))
    (h : (∃ e, resp = .error e) ∨ resp = .ok []) :
    locationDisplayName resp lat lon = fallbackLocationName lat lon := by
  rcases h with ⟨e, rfl⟩ | rfl <;> rfl

/-- Witness for C5 at the spec's example coordinates (12.34, 45.67):
the formatted fallback carries exactly 4 decimal places. -/
theorem reverse_geocode_fallback_witness :
    locationDisplayName (Except.error "Failed to fetch location name")
        (Rat.divInt 1234 100) (Rat.divInt 4567 100)
      = "Location (12.3400, 45.6700)" := by
  rw [reverse_geocode_fallback (Rat.divInt 1234 100) (Rat.divInt 4567 100) _ (Or.inl ⟨_, rfl⟩)]
  decide

/-- C7: with a nonempty result set the display name is the first result's
base name with the finest available administrative qualifier appended,
preferring admin3 over admin2 over admin1, and the base name alone when all
three are absent. -/
theorem reverse_geocode_admin_preference (r : GeoResult) (rest : List GeoResult) (lat lon : ℚ) :
    locationDisplayName (.ok (r :: rest)) lat lon = qualifiedLocationName r ∧
    (∀ a, r.admin3 = some a → qualifiedLocationName r = r.name ++ ", " ++ a) ∧
    (∀ a, r.admin3 = none → r.admin2 = some a →
      qualifiedLocationName r = r.name ++ ", " ++ a) ∧
    (∀ a, r.admin3 = none → r.admin2 = none → r.admin1 = some a →
      qualifiedLocationName r = r.name ++ ", " ++ a) ∧
    (r.admin3 = none → r.admin2 = none → r.admin1 = none →
      qualifiedLocationName r = r.name) := by
  obtain ⟨nm, a1, a2, a3⟩ := r
  refine ⟨rfl, ?_, ?_, ?_, ?_⟩ <;> intros <;> simp_all [qualifiedLocationName]

/-- Witness for C7: admin3 absent, admin2 present wins over admin1. -/
theorem reverse_geocode_admin_preference_witness :
    qualifiedLocationName ⟨"Bukit Bintang", some "Kuala Lumpur", some "KL District", none⟩
      = "Bukit Bintang, KL District" :=
  (reverse_geocode_admin_preference
      ⟨"Bukit Bintang", some "Kuala Lumpur", some "KL District", none⟩ [] 0 0).2.2.1
    "KL District" rfl rfl

/-- C8: a blank (empty or whitespace-only) query issues no geocoding request;
every issued request is capped at count 10 with language "en"; and when the
server honours the requested cap, the returned result list has at most 10
entries. -/
theorem search_cap_and_short_circuit
    (server : GeocodingRequest → Option (List GeocodingResult)) (query : String) :
    (jsTrim query = "" → handleSearchRequests query = []) ∧
    (∀ req ∈ handleSearchRequests query, req.count = 10 ∧ req.language = "en") ∧
    ((∀ req res, server req = some res → res.length ≤ req.count) →
      (searchLocation server query).length ≤ 10) := by
  refine ⟨?_, ?_, ?_⟩
  · intro h
    simp [handleSearchRequests, h]
  · intro req hreq
    simp only [handleSearchRequests] at hreq
    split at hreq
    · simp at hreq
    · simp only [List.mem_singleton] at hreq
      subst hreq
      exact ⟨rfl, rfl⟩
  · intro hserver
    unfold searchLocation
    cases hsv : server (searchLocationRequest query) with
    | none => simp
    | some res => simpa using hserver _ res hsv

/-- Witness for C8: a whitespace query issues nothing; an honouring server
yields at most 10 results for "Paris". -/
theorem search_cap_and_short_circuit_witness :
    handleSearchRequests "   " = [] ∧
    (searchLocation (fun _ => some []) "Paris").length ≤ 10 :=
  ⟨(search_cap_and_short_circuit (fun _ => some []) "   ").1 (by decide),
   (search_cap_and_short_circuit (fun _ => some []) "Paris").2.2
     (by
       intro req res h
       simp only [Option.some.injEq] at h
       subst h
       exact Nat.zero_le _)⟩

/-- C1 counterexample: the documented range table is self-overlapping at
codes 80-82, which lie inside the snow range 71-86 as well as the showers
range 80-82; applying the rows in the documented order, code 80 classifies as
snow, not showers, so the table cannot be satisfied as stated. -/
theorem mapWeatherCode_showers_shadowed :
    mapWeatherCode 80 true = WeatherCondition.snow ∧
    mapWeatherCode 80 true ≠ WeatherCondition.showers ∧
    (71 : ℤ) ≤ 80 ∧ (80 : ℤ) ≤ 86 ∧ (80 : ℤ) ≤ 82 := by
  decide

/-- C1 amended: the classifier is total (it is a Lean function into the
closed enumeration), follows the documented range table applied in order with
first match winning — so codes 80-82 fall into the snow range 71-86 and the
showers row matches nothing — and every integer outside all documented ranges
returns the default clear-day condition. -/
theorem mapWeatherCode_total_range_table (code : ℤ) (isDay : Bool) :
    (0 ≤ code → code ≤ 1 →
      mapWeatherCode code isDay
        = if isDay then WeatherCondition.clearDay else WeatherCondition.clearNight) ∧
    (2 ≤ code → code ≤ 3 →
      mapWeatherCode code isDay
        = if isDay then WeatherCondition.partlyCloudyDay
          else WeatherCondition.partlyCloudyNight) ∧
    (45 ≤ code → code ≤ 48 → mapWeatherCode code isDay = WeatherCondition.fog) ∧
    (51 ≤ code → code ≤ 67 → mapWeatherCode code isDay = WeatherCondition.rain) ∧
    (71 ≤ code → code ≤ 86 → mapWeatherCode code isDay = WeatherCondition.snow) ∧
    (95 ≤ code → code ≤ 99 → mapWeatherCode code isDay = WeatherCondition.thunderstorm) ∧
    (¬(0 ≤ code ∧ code ≤ 3) → ¬(45 ≤ code ∧ code ≤ 48) → ¬(51 ≤ code ∧ code ≤ 67) →
      ¬(71 ≤ code ∧ code ≤ 86) → ¬(95 ≤ code ∧ code ≤ 99) →
      mapWeatherCode code isDay = WeatherCondition.clearDay) := by
  refine ⟨?_, ?_, ?_, ?_, ?_, ?_, ?_⟩ <;>
    intros <;>
    unfold mapWeatherCode <;>
    split_ifs <;>
    first
      | rfl
      | (exfalso; omega)

/-- Witness for the amended C1: code 46 is fog; code 100 is outside all
documented ranges and falls back to clear-day. -/
theorem mapWeatherCode_total_range_table_witness :
    mapWeatherCode 46 false = WeatherCondition.fog ∧
    mapWeatherCode 100 true = WeatherCondition.clearDay :=
  ⟨(mapWeatherCode_total_range_table 46 false).2.2.1 (by decide) (by decide),
   (mapWeatherCode_total_range_table 100 true).2.2.2.2.2.2
     (by decide) (by decide) (by decide) (by decide) (by decide)⟩

/-- A sorted list's `getD` values are monotone in the index below the length. -/
theorem sorted_getD_mono (times : List ℤ) (hs : times.Sorted (· ≤ ·)) {i j : ℕ}
    (hij : i ≤ j) (hj : j < times.length) : times.getD i 0 ≤ times.getD j 0 := by
  rcases eq_or_lt_of_le hij with rfl | hlt
  · exact le_refl _
  · have hi : i < times.length := lt_trans hlt hj
    rw [List.getD_eq_getElem _ _ hi, List.getD_eq_getElem _ _ hj]
    exact List.pairwise_iff_get.mp hs ⟨i, hi⟩ ⟨j, hj⟩ hlt

/-- When a future sample exists, the start index is in bounds and its
timestamp is at or after the current time. -/
theorem startIndex_spec (times : List ℤ) (nowMs : ℤ)
    (hex : ∃ i, i < times.length ∧ nowMs ≤ times.getD i 0) :
    startIndex times nowMs < times.length ∧
    nowMs ≤ times.getD (startIndex times nowMs) 0 := by
  unfold startIndex
  rcases hfind : (List.range times.length).find?
      (fun i => decide (nowMs ≤ times.getD i 0)) with _ | s
  · exfalso
    obtain ⟨i, hi, hle⟩ := hex
    have hnone := List.find?_eq_none.mp hfind i (List.mem_range.mpr hi)
    simp only [decide_eq_true_eq] at hnone
    exact hnone hle
  · have hmem := List.mem_of_find?_eq_some hfind
    have hp := List.find?_some hfind
    simp only [decide_eq_true_eq] at hp
    exact ⟨List.mem_range.mp hmem, hp⟩

/-- C3 counterexample: for the sorted two-sample series [0 ms, 3600000 ms]
with the current time 6300000 ms (45 minutes past the last sample) and
n = 2 ≤ length, the selector returns the single closest-preceding index 1,
whose timestamp 3600000 is strictly before now minus the 30-minute tolerance
window (4500000), and the result has fewer than n entries. -/
theorem getNextNHours_tolerance_counterexample :
    getNextNHours [0, 3600000] 6300000 2 = [1] ∧
    List.Sorted (· ≤ ·) ([0, 3600000] : List ℤ) ∧
    2 ≤ ([0, 3600000] : List ℤ).length ∧
    ([0, 3600000] : List ℤ).getD 1 0 < 6300000 - 1800000 := by
  decide

/-- C3 amended: for a sorted series containing at least one sample at or
after the current time, the selector returns strictly increasing, repetition
free indices, all in bounds with timestamps at or after the current time
(hence within the tolerance window), of length `min n remaining` — exactly
`n` whenever that many samples remain from the start index (no wrapping, no
padding). -/
theorem getNextNHours_future_window (times : List ℤ) (nowMs : ℤ) (n : ℕ)
    (hs : times.Sorted (· ≤ ·))
    (hex : ∃ i, i < times.length ∧ nowMs ≤ times.getD i 0) :
    List.Pairwise (· < ·) (getNextNHours times nowMs n) ∧
    (getNextNHours times nowMs n).length
      = min n (times.length - startIndex times nowMs) ∧
    (∀ idx ∈ getNextNHours times nowMs n,
      idx < times.length ∧ nowMs ≤ times.getD idx 0 ∧
      nowMs - 1800000 ≤ times.getD idx 0) ∧
    (n ≤ times.length - startIndex times nowMs →
      (getNextNHours times nowMs n).length = n) ∧
    (getNextNHours times nowMs n).Nodup := by
  obtain ⟨hslt, hsle⟩ := startIndex_spec times nowMs hex
  have hpair : List.Pairwise (· < ·) (getNextNHours times nowMs n) := by
    unfold getNextNHours
    refine List.Pairwise.map _ (fun a b h => ?_) (List.pairwise_lt_range _)
    omega
  have hlen : (getNextNHours times nowMs n).length
      = min n (times.length - startIndex times nowMs) := by
    simp [getNextNHours]
  refine ⟨hpair, hlen, ?_, ?_, ?_⟩
  · intro idx hidx
    simp only [getNextNHours, List.mem_map, List.mem_range] at hidx
    obtain ⟨k, hk, rfl⟩ := hidx
    have hlt : startIndex times nowMs + k < times.length := by omega
    have hmono := sorted_getD_mono times hs (Nat.le_add_right (startIndex times nowMs) k) hlt
    exact ⟨hlt, le_trans hsle hmono, by omega⟩
  · intro hn
    omega
  · exact hpair.imp (fun h => Nat.ne_of_lt h)

/-- Witness for the amended C3: three hourly samples, now at the second one. -/
theorem getNextNHours_future_window_witness :
    getNextNHours [0, 3600000, 7200000] 3600000 2 = [1, 2] ∧
    List.Pairwise (· < ·) (getNextNHours [0, 3600000, 7200000] 3600000 2) :=
  ⟨by decide,
   (getNextNHours_future_window [0, 3600000, 7200000] 3600000 2
     (by decide) ⟨1, by decide⟩).1⟩

/-- C4: every synthetic overlay point lies within the grid disc — its index
offset satisfies i² + j² ≤ 10², hence its coordinates are within the 2-degree
grid radius of the center — and skipped tiers render nothing: precipitation
value 0 and cloud cover below 10 produce no circle. -/
theorem overlay_disc_and_skipped_tiers (lat lon : ℚ) (s : MapSample) (mt : MapType)
    (rf : ℤ → ℤ → ℚ) (cl : ℤ → ℤ → Bool) (df : ℤ → ℤ → ℚ) (unit : TempUnit) :
    (∀ p ∈ overlayPoints lat lon s mt rf cl df,
      p.i * p.i + p.j * p.j ≤ 100 ∧
      p.lat = lat + p.i * 2 / 10 ∧ p.lon = lon + p.j * 2 / 10 ∧
      (p.lat - lat) ^ 2 + (p.lon - lon) ^ 2 ≤ 4) ∧
    (∀ p : OverlayPoint, p.value = 0 → renderPoint .precipitation unit p = none) ∧
    (∀ p : OverlayPoint, p.value < 10 → renderPoint .clouds unit p = none) := by
  refine ⟨?_, ?_, ?_⟩
  · intro p hp
    simp only [overlayPoints, List.mem_flatMap] at hp
    obtain ⟨i, hi, j, hj, hpin⟩ := hp
    by_cases hgt : i * i + j * j > 100
    · simp [hgt] at hpin
    · simp only [hgt, if_false, List.mem_singleton] at hpin
      subst hpin
      push_neg at hgt
      refine ⟨hgt, rfl, rfl, ?_⟩
      have hq : ((i : ℚ) * i + (j : ℚ) * j) ≤ 100 := by exact_mod_cast hgt
      have e1 : (lat + (i : ℚ) * 2 / 10 - lat) = (i : ℚ) * 2 / 10 := by ring
      have e2 : (lon + (j : ℚ) * 2 / 10 - lon) = (j : ℚ) * 2 / 10 := by ring
      rw [e1, e2]
      nlinarith [hq]
  · intro p hv
    simp [renderPoint, hv]
  · intro p hv
    simp [renderPoint, hv]

/-- Witness for C4: a zero-precipitation point and a 5%-cloud point render
nothing, and the center point of a concrete grid satisfies the disc bound. -/
theorem overlay_disc_and_skipped_tiers_witness :
    renderPoint MapType.precipitation TempUnit.celsius ⟨0, 0, 0, 0, 0⟩ = none ∧
    renderPoint MapType.clouds TempUnit.celsius ⟨3, 4, 0, 0, 5⟩ = none ∧
    (0 : ℤ) * 0 + 0 * 0 ≤ 100 := by
  have hthm := overlay_disc_and_skipped_tiers 1 2 ⟨0, 0, 0, 0⟩ MapType.other
    (fun _ _ => 1) (fun _ _ => false) (fun _ _ => 1) TempUnit.celsius
  refine ⟨hthm.2.1 ⟨0, 0, 0, 0, 0⟩ rfl, hthm.2.2 ⟨3, 4, 0, 0, 5⟩ (by norm_num), ?_⟩
  have hmem : (⟨0, 0, 1, 2, 0⟩ : OverlayPoint) ∈
      overlayPoints 1 2 ⟨0, 0, 0, 0⟩ MapType.other
        (fun _ _ => 1) (fun _ _ => false) (fun _ _ => 1) := by
    refine List.mem_flatMap.mpr ⟨0, by decide, List.mem_flatMap.mpr ⟨0, by decide, ?_⟩⟩
    norm_num [overlayValue]
  exact (hthm.1 ⟨0, 0, 1, 2, 0⟩ hmem).1

/-- C10 counterexample: with the fetched temperature -50 °C in celsius mode,
the center grid point (a legitimate run: the jitter draw 1 lies in
[0.7, 1.3] and the distance factor at the center is exactly 1) is rendered as
a circle of radius 20000 + (-50)·500 = -5000, which is not strictly
positive. -/
theorem temp_overlay_radius_counterexample :
    (⟨0, 0, 0, 0, -50⟩ : OverlayPoint) ∈
      overlayPoints 0 0 ⟨-50, 0, 0, 0⟩ MapType.temp
        (fun _ _ => 1) (fun _ _ => false) (fun _ _ => 1) ∧
    renderPoint MapType.temp TempUnit.celsius ⟨0, 0, 0, 0, -50⟩
      = some ⟨0, 0, "rgb(0, 50, 200)", 6/10, -5000⟩ ∧
    (7/10 : ℚ) ≤ 1 ∧ (1 : ℚ) ≤ 13/10 ∧
    ¬ (0 : ℚ) < -5000 := by
  refine ⟨?_, ?_, by norm_num, by norm_num, by norm_num⟩
  · refine List.mem_flatMap.mpr ⟨0, by decide, List.mem_flatMap.mpr ⟨0, by decide, ?_⟩⟩
    norm_num [overlayValue]
  · have hlt : (-50 : ℚ) < 0 := by norm_num
    simp [renderPoint, hlt]
    norm_num

/-- C10 amended: a temperature-mode circle has strictly positive radius if
and only if the synthetic point value exceeds -40; the threshold is the same
for both units because 20000 + v·500 > 0 ⟺ v > -40 in Celsius mode and
20000 + (9v/5 + 32)·500 = 36000 + 900v > 0 ⟺ v > -40 in Fahrenheit mode. -/
theorem temp_radius_pos_iff (unit : TempUnit) (p : OverlayPoint) (c : MapCircle)
    (h : renderPoint MapType.temp unit p = some c) :
    0 < c.radius ↔ -40 < p.value := by
  rcases unit with _ | _
  · simp only [renderPoint] at h
    have hv : (if TempUnit.celsius = TempUnit.fahrenheit then fahrenheitOf p.value else p.value)
        = p.value := by simp
    simp only [hv] at h
    obtain rfl := Option.some.inj h
    show 0 < 20000 + p.value * 500 ↔ -40 < p.value
    constructor <;> intro h' <;> linarith
  · simp only [renderPoint, fahrenheitOf] at h
    obtain rfl := Option.some.inj h
    show 0 < 20000 + (p.value * 9 / 5 + 32) * 500 ↔ -40 < p.value
    constructor <;> intro h' <;> linarith

/-- Witness for the amended C10: a 25 °C point yields radius 32500 > 0. -/
theorem temp_radius_pos_iff_witness :
    renderPoint MapType.temp TempUnit.celsius ⟨0, 0, 0, 0, 25⟩
      = some ⟨0, 0, "rgb(255, 200, 0)", 6/10, 32500⟩ ∧
    (0 : ℚ) < 32500 := by
  have hr : renderPoint MapType.temp TempUnit.celsius ⟨0, 0, 0, 0, 25⟩
      = some ⟨0, 0, "rgb(255, 200, 0)", 6/10, 32500⟩ := by
    have h0 : ¬ (25 : ℚ) < 0 := by norm_num
    have h10 : ¬ (25 : ℚ) < 10 := by norm_num
    have h20 : ¬ (25 : ℚ) < 20 := by norm_num
    have h25 : ¬ (25 : ℚ) < 25 := by norm_num
    have h30 : (25 : ℚ) < 30 := by norm_num
    simp [renderPoint, h0, h10, h20, h25, h30]
    norm_num
  exact ⟨hr,
    (temp_radius_pos_iff TempUnit.celsius ⟨0, 0, 0, 0, 25⟩
      ⟨0, 0, "rgb(255, 200, 0)", 6/10, 32500⟩ hr).mpr (by norm_num)⟩

end FGWeather
